import Mathlib

/-
Shallow embedding of the Factom-Client rust library.

Source files embedded: src/lib.rs (client handle, URI constants, the
ApiRequest envelope and the Response/Outcome decoding used by
inner_api_call), src/responses.rs (ApiResponse/ApiError and their
success/is_err classification), src/tx.rs (ack, pending_transactions,
transactions param building and the SearchBy enum), src/entry.rs
(commit_entry), src/wallet_utils.rs (sign_data).

JSON values are modelled by the inductive `Json` below.  Numbers are
modelled as integers: every numeric field the embedded code reads or
writes (request id, error code, amounts, block heights) is an integral
type in the source, so float payloads are irrelevant to the claims.
Objects are modelled as association lists in insertion order, assumed
free of duplicate keys (serde rejects duplicate struct fields).
-/

inductive Json where
  | null : Json
  | bool (b : Bool) : Json
  | num (n : Int) : Json
  | str (s : String) : Json
  | arr (xs : List Json) : Json
  | obj (fields : List (String × Json)) : Json

/-! ## Constants from src/lib.rs lines 13-17 -/

def WALLET_URI : String := "http://localhost:8088/v2"
def FACTOMD_URI : String := "http://localhost:8089/v2"
def API_VERSION : Nat := 2
def JSONRPC : String := "2.0"
def ID : Nat := 0

/-! ## Client handle (src/lib.rs `Factom`, lines 88-126) -/

structure Factom where
  uri : String
  wallet_uri : String

/-- `Factom::new` (src/lib.rs lines 95-100): default handle built from the
two URI constants. -/
def Factom.new : Factom :=
  { uri := FACTOMD_URI, wallet_uri := WALLET_URI }

/-- `Factom::from_host` (src/lib.rs lines 102-107): the code formats
`http://{host}:8088/v{API_VERSION}` into the `uri` field and
`http://{host}:8089/v{API_VERSION}` into the `wallet_uri` field. -/
def Factom.from_host (host : String) : Factom :=
  { uri := "http://" ++ host ++ ":8088/v" ++ toString API_VERSION,
    wallet_uri := "http://" ++ host ++ ":8089/v" ++ toString API_VERSION }

/-- `Factom::from_https_host` (src/lib.rs lines 109-114). -/
def Factom.from_https_host (host : String) : Factom :=
  { uri := "https://" ++ host ++ ":8088/v" ++ toString API_VERSION,
    wallet_uri := "https://" ++ host ++ ":8089/v" ++ toString API_VERSION }

/-- `Factom::call` (src/lib.rs lines 116-120) sends the request to
`self.uri`; this function exposes the URI that a node-daemon call uses. -/
def Factom.call_uri (f : Factom) : String := f.uri

/-- `Factom::walletd_call` (src/lib.rs lines 122-126) sends the request to
`self.wallet_uri`; this function exposes the URI that a wallet-daemon
call uses. -/
def Factom.walletd_call_uri (f : Factom) : String := f.wallet_uri

/-! ## Request envelope (src/lib.rs `ApiRequest`, lines 42-69) -/

structure ApiRequest where
  jsonrpc : String
  id : Nat
  method : String
  params : List (String × Json)

/-- `ApiRequest::method` (src/lib.rs lines 51-58): builds the envelope with
the fixed JSONRPC and ID constants and an empty params map.  (Named
`ofMethod` here because the structure already has a `method` field.) -/
def ApiRequest.ofMethod (m : String) : ApiRequest :=
  { jsonrpc := JSONRPC, id := ID, method := m, params := [] }

/-- `ApiRequest::parameters` (src/lib.rs lines 60-63): replaces the params
map, leaving the other fields untouched. -/
def ApiRequest.parameters (r : ApiRequest) (ps : List (String × Json)) : ApiRequest :=
  { r with params := ps }

/-- Modelled from the spec: `ApiRequest::new`, the envelope constructor
called throughout src/entry.rs, src/tx.rs, src/identity.rs and
src/wallet_utils.rs, is defined outside src/.  Per the spec's request
envelope (section 3 and section 6: fixed protocol-version literal "2.0",
fixed request identifier 0, params a mapping holding the named
parameters that the dispatch functions insert), it builds the envelope
with the two constants and an empty params map. -/
def ApiRequest.new (m : String) : ApiRequest :=
  { jsonrpc := JSONRPC, id := ID, method := m, params := [] }

/-- `HashMap::insert` on the params map: replaces any existing binding of
the key.  Insertion order of distinct keys is kept for concreteness; the
claims only constrain which keys are bound and to what. -/
def insertParam (ps : List (String × Json)) (k : String) (v : Json) :
    List (String × Json) :=
  (ps.filter (fun p => p.1 != k)) ++ [(k, v)]

/-- `req.params.insert(k, v)` on a request. -/
def ApiRequest.insert (r : ApiRequest) (k : String) (v : Json) : ApiRequest :=
  { r with params := insertParam r.params k v }

/-! ## Dispatch param building (src/tx.rs, src/wallet_utils.rs) -/

/-- `SearchBy` (src/tx.rs lines 522-526). -/
inductive SearchBy where
  | Range : Nat → Nat → SearchBy
  | Txid : String → SearchBy
  | Address : String → SearchBy

/-- The request built by `Factom::transactions` (src/tx.rs lines 496-518):
starting from `ApiRequest::new("transactions")`, the match on the
`SearchBy` filter inserts exactly one of `txid`, `address`, `range`
(the latter a map with `start` and `end`). -/
def Factom.transactions (filter : SearchBy) : ApiRequest :=
  let req := ApiRequest.new "transactions"
  match filter with
  | .Txid txid => req.insert "txid" (.str txid)
  | .Address address => req.insert "address" (.str address)
  | .Range s e =>
      let range := insertParam (insertParam [] "start" (.num s)) "end" (.num e)
      req.insert "range" (.obj range)

/-- The request built by `Factom::ack` (src/tx.rs lines 73-88): `hash` and
`chainid` are always inserted; `fulltransaction` only when the optional
argument is present. -/
def Factom.ack (hash chainid : String) (full_transaction : Option String) : ApiRequest :=
  let req := (ApiRequest.new "ack").insert "hash" (.str hash)
  let req := req.insert "chainid" (.str chainid)
  match full_transaction with
  | some tx => req.insert "fulltransaction" (.str tx)
  | none => req

/-- The request built by `Factom::pending_transactions` (src/tx.rs lines
187-198): `address` is inserted only when the optional argument is
present. -/
def Factom.pending_transactions (address : Option String) : ApiRequest :=
  let req := ApiRequest.new "pending-transactions"
  match address with
  | some add => req.insert "address" (.str add)
  | none => req

/-- The request built by `Factom::sign_data` (src/wallet_utils.rs lines
72-79) as the code is written: the two `req.params.insert` statements
precede the `let mut req = ApiRequest::new("sign-data")` statement (they
reference a binding that does not exist yet, and `Hashmap::new()` is a
misspelling of `HashMap`), so the `req` that is constructed and handed
to `walletd_call` is the fresh envelope with an empty params map. -/
def Factom.sign_data (signer data : String) : ApiRequest :=
  ApiRequest.new "sign-data"

/-! ## Response envelopes

Two embeddings coexist in the source: the defaulting `ApiResponse<T>`
of src/responses.rs (used by the dispatch functions of src/entry.rs,
src/tx.rs, ...) and the `Response`/`Outcome` pair of src/lib.rs (used by
`inner_api_call`).  Their serde-derived deserializers are embedded as
explicit decoders over `Json`. -/

/-- Field access on a decoded object, first binding wins (objects are
assumed duplicate-free, see the header comment). -/
def Json.lookupField (fs : List (String × Json)) (k : String) : Option Json :=
  match fs with
  | [] => none
  | (k0, v) :: rest => if k == k0 then some v else Json.lookupField rest k

/-- serde: a required `String` field. -/
def getString (fs : List (String × Json)) (k : String) : Except String String :=
  match Json.lookupField fs k with
  | some (.str s) => .ok s
  | some _ => .error ("invalid type for field " ++ k)
  | none => .error ("missing field " ++ k)

/-- serde: a required `u32` field (an integral JSON number in range). -/
def getU32 (fs : List (String × Json)) (k : String) : Except String Nat :=
  match Json.lookupField fs k with
  | some (.num n) =>
      if 0 ≤ n ∧ n < 4294967296 then .ok n.toNat
      else .error ("out of range for field " ++ k)
  | some _ => .error ("invalid type for field " ++ k)
  | none => .error ("missing field " ++ k)

/-- serde: a required `i16` field (an integral JSON number in range). -/
def getI16 (fs : List (String × Json)) (k : String) : Except String Int :=
  match Json.lookupField fs k with
  | some (.num n) =>
      if -32768 ≤ n ∧ n < 32768 then .ok n
      else .error ("out of range for field " ++ k)
  | some _ => .error ("invalid type for field " ++ k)
  | none => .error ("missing field " ++ k)

/-- `ApiError` (src/responses.rs lines 22-26): `code: i16`, `message:
String`.  The code is modelled as an `Int` kept within i16 range by the
decoder. -/
structure ApiError where
  code : Int
  message : String

/-- The `Default` impl derived for `ApiError`: code 0, empty message. -/
def ApiError.default : ApiError := { code := 0, message := "" }

/-- The serde-derived deserializer for `ApiError`: an object with required
`code` and `message` fields (no per-field defaults on this struct). -/
def decodeApiError (j : Json) : Except String ApiError :=
  match j with
  | .obj fs =>
      Except.bind (getI16 fs "code") (fun c =>
        Except.bind (getString fs "message") (fun m =>
          Except.ok { code := c, message := m }))
  | _ => .error "invalid type: ApiError expects an object"

/-- `ApiResponse<T>` (src/responses.rs lines 8-19). -/
structure ApiResponse (T : Type) where
  jsonrpc : String
  id : Nat
  result : T
  error : ApiError

/-- `ApiResponse::is_err` (src/responses.rs lines 63-65). -/
def ApiResponse.is_err {T : Type} (r : ApiResponse T) : Bool :=
  r.error.code != 0

/-- `ApiResponse::success` (src/responses.rs lines 69-71). -/
def ApiResponse.success {T : Type} (r : ApiResponse T) : Bool :=
  r.error.code == 0

/-- The serde-derived deserializer for `ApiResponse<T>`: `jsonrpc` and
`id` are required; `result` and `error` carry `#[serde(default)]`, so an
absent member falls back to the default value and a present member is
decoded in full.  Unknown members are ignored (serde's default).
`decT`/`dT` are the inner type's deserializer and `Default` value.
`decodeDefaulted` embeds the `#[serde(default)]` field semantics: absent
member falls back to the default, present member is decoded in full. -/
def decodeDefaulted {T : Type} (decT : Json → Except String T) (dT : T)
    (o : Option Json) : Except String T :=
  match o with
  | none => Except.ok dT
  | some v => decT v

def decodeApiResponse {T : Type} (decT : Json → Except String T) (dT : T)
    (j : Json) : Except String (ApiResponse T) :=
  match j with
  | .obj fs =>
      Except.bind (getString fs "jsonrpc") (fun jr =>
        Except.bind (getU32 fs "id") (fun i =>
          Except.bind (decodeDefaulted decT dT (Json.lookupField fs "result")) (fun res =>
            Except.bind (decodeDefaulted decodeApiError ApiError.default
                (Json.lookupField fs "error")) (fun er =>
              Except.ok { jsonrpc := jr, id := i, result := res, error := er }))))
  | _ => .error "invalid type: ApiResponse expects an object"

/-- `ApiResponse<Value>`: the inner payload left as raw JSON (the raw
value deserializer never fails; `Value::default()` is null). -/
def decodeApiResponseRaw (j : Json) : Except String (ApiResponse Json) :=
  decodeApiResponse .ok Json.null j

/-- `Outcome` (src/lib.rs lines 19-23): either a raw success value or the
error object as a map. -/
inductive Outcome where
  | result (v : Json) : Outcome
  | error (m : List (String × Json)) : Outcome

/-- `Response` (src/lib.rs lines 25-31): `jsonrpc`, `id`, and a
`#[serde(flatten)]` `Outcome`. -/
structure Response where
  jsonrpc : String
  id : Nat
  result : Outcome

/-- `Response::success` (src/lib.rs lines 33-40). -/
def Response.success (r : Response) : Bool :=
  match r.result with
  | .error _ => false
  | .result _ => true

/-- The serde-derived deserializer for `Response`: `jsonrpc` and `id` are
required; every remaining member is handed to the flattened `Outcome`,
whose externally-tagged enum deserializer demands a map with exactly one
key, named `result` (any value) or `error` (a map). -/
def decodeResponse (j : Json) : Except String Response :=
  match j with
  | .obj fs =>
      match getString fs "jsonrpc" with
      | .error e => .error e
      | .ok jr =>
          match getU32 fs "id" with
          | .error e => .error e
          | .ok i =>
              match fs.filter (fun p => p.1 != "jsonrpc" && p.1 != "id") with
              | [(k, v)] =>
                  if k == "result" then
                    .ok { jsonrpc := jr, id := i, result := .result v }
                  else if k == "error" then
                    match v with
                    | .obj m => .ok { jsonrpc := jr, id := i, result := .error m }
                    | _ => .error "invalid type: error variant expects a map"
                  else .error ("unknown variant " ++ k)
              | _ => .error "expected a map with a single key"
  | _ => .error "invalid type: Response expects an object"

/-- `FetchError` (src/lib.rs lines 71-87): transport or deserialization
failure; `serde_json::Error` converts into the `Json` variant. -/
inductive FetchError where
  | Http (msg : String) : FetchError
  | Json (msg : String) : FetchError

/-- The decode step of `Factom::inner_api_call` (src/lib.rs lines
149-152): `serde_json::from_slice::<Response>(&json)?`.  The input is the
result of JSON syntax parsing (`none` models bytes that are not
well-formed JSON); any failure surfaces as `FetchError::Json`, the
library's deserialization error. -/
def responseFromSlice (parsed : Option Json) : Except FetchError Response :=
  match parsed with
  | none => .error (.Json "expected value")
  | some j =>
      match decodeResponse j with
      | .ok r => .ok r
      | .error e => .error (.Json e)

/-! ## Typed dispatch outcome (src/entry.rs commit_entry) -/

/-- `CommitEntry` (src/entry.rs lines 92-97). -/
structure CommitEntry where
  message : String
  txid : String
  entryhash : String

/-- The `Default` impl derived for `CommitEntry`. -/
def CommitEntry.default : CommitEntry := { message := "", txid := "", entryhash := "" }

/-- The serde-derived deserializer for `CommitEntry`: three required
string fields. -/
def decodeCommitEntry (j : Json) : Except String CommitEntry :=
  match j with
  | .obj fs =>
      Except.bind (getString fs "message") (fun msg =>
        Except.bind (getString fs "txid") (fun t =>
          Except.bind (getString fs "entryhash") (fun eh =>
            Except.ok { message := msg, txid := t, entryhash := eh })))
  | _ => .error "invalid type: CommitEntry expects an object"

/-- The call-level error taxonomy of the spec (section 7): transport,
serialization and deserialization failures abort the call. -/
inductive CallError where
  | Transport (msg : String) : CallError
  | Serialization (msg : String) : CallError
  | Deserialization (msg : String) : CallError

/-- Modelled from the spec: the `parse` helper invoked by every dispatch
function in src/entry.rs, src/tx.rs, src/identity.rs and
src/wallet_utils.rs is defined outside src/.  Per spec sections 4.3 and
7, a response body that decodes as an envelope is returned as a
successful call outcome (an error envelope included, exposed as typed
data), and a body that does not decode surfaces as a
`DeserializationError`. -/
def parseOutcome {T : Type} (dec : Except String (ApiResponse T)) :
    Except CallError (ApiResponse T) :=
  match dec with
  | .ok a => .ok a
  | .error e => .error (.Deserialization e)

/-- The decode half of `commit_entry` (src/entry.rs lines 21-28): the
response body is decoded as `ApiResponse<CommitEntry>` and fed through
`parse`. -/
def commit_entry_outcome (body : Json) : Except CallError (ApiResponse CommitEntry) :=
  parseOutcome (decodeApiResponse decodeCommitEntry CommitEntry.default body)

/-! ## Theorems -/

/-- `Except.bind` on a success value applies the continuation (the `?`
operator of the rust source on an Ok value). -/
theorem except_bind_ok {e a b : Type} (x : a) (f : a → Except e b) :
    Except.bind (Except.ok x) f = f x := rfl

/-- `Except.bind` on an error propagates it (the `?` operator of the rust
source on an Err value). -/
theorem except_bind_error {e a b : Type} (err : e) (f : a → Except e b) :
    Except.bind (Except.error err : Except e a) f = Except.error err := rfl

/-- Unfolding of `decodeApiResponse` on an object (the only shape it
accepts), stated once so later proofs rewrite with it. -/
theorem decodeApiResponse_obj {T : Type} (decT : Json → Except String T) (dT : T)
    (fs : List (String × Json)) :
    decodeApiResponse decT dT (Json.obj fs) =
      Except.bind (getString fs "jsonrpc") (fun jr =>
        Except.bind (getU32 fs "id") (fun i =>
          Except.bind (decodeDefaulted decT dT (Json.lookupField fs "result")) (fun res =>
            Except.bind (decodeDefaulted decodeApiError ApiError.default
                (Json.lookupField fs "error")) (fun er =>
              Except.ok { jsonrpc := jr, id := i, result := res, error := er })))) := rfl


/-- C1.  The claim says the hostname-override constructors keep each
daemon's default port (node 8089, wallet 8088).  The code does the
opposite: this theorem evaluates `from_https_host` at the claim's input
`"node.example.com"` and shows the node-daemon URI gets port 8088 and
the wallet-daemon URI gets port 8089, swapped relative to the default
handle (final two conjuncts). -/
theorem from_https_host_port_assignment :
    (Factom.from_https_host "node.example.com").call_uri
      = "https://node.example.com:8088/v2" ∧
    (Factom.from_https_host "node.example.com").walletd_call_uri
      = "https://node.example.com:8089/v2" ∧
    Factom.new.call_uri = "http://localhost:8089/v2" ∧
    Factom.new.walletd_call_uri = "http://localhost:8088/v2" := by
  refine ⟨rfl, rfl, rfl, rfl⟩

/-- C2.  The `transactions` dispatch encodes exactly one of the keys
`txid`, `address`, `range` into params: the params map is exactly the
one-key map dictated by the `SearchBy` argument, with `Range(1,2)`
yielding `range = \x7bstart: 1, end: 2\x7d`. -/
theorem transactions_encodes_exactly_one_key :
    (∀ s e : Nat, (Factom.transactions (.Range s e)).params
        = [("range", Json.obj [("start", Json.num s), ("end", Json.num e)])]) ∧
    (∀ t : String, (Factom.transactions (.Txid t)).params = [("txid", Json.str t)]) ∧
    (∀ a : String, (Factom.transactions (.Address a)).params = [("address", Json.str a)]) := by
  refine ⟨fun s e => rfl, fun t => rfl, fun a => rfl⟩

/-- C3.  `ApiResponse::success` reports true exactly when the decoded
error code equals 0 (an absent error member defaults to code 0), and
`is_err` is its negation. -/
theorem apiResponse_success_iff_code_zero :
    ∀ (T : Type) (r : ApiResponse T),
      (r.success = true ↔ r.error.code = 0) ∧ r.is_err = !r.success := by
  intro T r
  constructor
  · simp [ApiResponse.success]
  · simp [ApiResponse.is_err, ApiResponse.success, bne]

/-- C6.  Optional arguments are encoded only when present: `ack` omits
the `fulltransaction` key when the hint is `None` and binds it when
`Some`; `pending_transactions` does the same with `address`. -/
theorem optional_args_omitted_when_none :
    (∀ h c : String,
      Json.lookupField (Factom.ack h c none).params "fulltransaction" = none) ∧
    (∀ h c v : String,
      Json.lookupField (Factom.ack h c (some v)).params "fulltransaction"
        = some (Json.str v)) ∧
    (Json.lookupField (Factom.pending_transactions none).params "address" = none) ∧
    (∀ a : String,
      Json.lookupField (Factom.pending_transactions (some a)).params "address"
        = some (Json.str a)) := by
  refine ⟨fun h c => rfl, fun h c v => rfl, rfl, fun a => rfl⟩

/-- C7.  Every request envelope carries the fixed protocol-version
literal "2.0" and the fixed request identifier 0, whatever the method
name and params mapping. -/
theorem request_envelope_constants :
    ∀ (m : String) (ps : List (String × Json)),
      ((ApiRequest.ofMethod m).parameters ps).jsonrpc = "2.0" ∧
      ((ApiRequest.ofMethod m).parameters ps).id = 0 ∧
      (ApiRequest.new m).jsonrpc = "2.0" ∧
      (ApiRequest.new m).id = 0 := by
  intro m ps
  refine ⟨rfl, rfl, rfl, rfl⟩

/-- C8.  The default handle sends node-daemon calls to
http://localhost:8089/v2 and wallet-daemon calls to
http://localhost:8088/v2. -/
theorem default_handle_uris :
    Factom.new.call_uri = "http://localhost:8089/v2" ∧
    Factom.new.walletd_call_uri = "http://localhost:8088/v2" := by
  refine ⟨rfl, rfl⟩

/-- C9.  The claim says `sign_data` builds a params mapping holding
exactly `signer` and `data`.  The code inserts into `req.params` before
`req` is bound, so the request that is actually constructed and sent
names the wire method "sign-data" but carries an empty params map: for
every signer and data the two keys are absent. -/
theorem sign_data_sends_empty_params :
    ∀ signer data : String,
      (Factom.sign_data signer data).method = "sign-data" ∧
      (Factom.sign_data signer data).params = [] ∧
      Json.lookupField (Factom.sign_data signer data).params "signer" = none ∧
      Json.lookupField (Factom.sign_data signer data).params "data" = none := by
  intro signer data
  refine ⟨rfl, rfl, rfl, rfl⟩
/-! ## Helper lemmas on field lookup and the flattened residual -/

theorem not_mem_of_lookupField_none :
    ∀ (fs : List (String × Json)) (k : String),
      Json.lookupField fs k = none → ∀ v : Json, (k, v) ∉ fs := by
  intro fs
  induction fs with
  | nil => intro k _ v hv; simp at hv
  | cons p rest ih =>
      intro k h v hv
      obtain ⟨k0, v0⟩ := p
      by_cases hk : k = k0
      · subst hk; simp [Json.lookupField] at h
      · simp [Json.lookupField, hk] at h
        rcases List.mem_cons.mp hv with h1 | h1
        · exact hk (congrArg Prod.fst h1)
        · exact ih k h v h1

theorem lookupField_none_of_not_mem :
    ∀ (fs : List (String × Json)) (k : String),
      (∀ v : Json, (k, v) ∉ fs) → Json.lookupField fs k = none := by
  intro fs
  induction fs with
  | nil => intro k _; rfl
  | cons p rest ih =>
      intro k h
      obtain ⟨k0, v0⟩ := p
      by_cases hk : k = k0
      · subst hk; exact absurd (List.mem_cons_self _ _) (h v0)
      · simp [Json.lookupField, hk]
        exact ih k (fun v hv => h v (List.mem_cons_of_mem _ hv))

theorem lookupField_some_of_mem :
    ∀ (fs : List (String × Json)) (k : String) (v : Json),
      (k, v) ∈ fs → (∀ v' : Json, (k, v') ∈ fs → v' = v) →
      Json.lookupField fs k = some v := by
  intro fs
  induction fs with
  | nil => intro k v hmem _; simp at hmem
  | cons p rest ih =>
      intro k v hmem huniq
      obtain ⟨k0, v0⟩ := p
      by_cases hk : k = k0
      · subst hk
        have hv0 : v0 = v := huniq v0 (List.mem_cons_self _ _)
        subst hv0
        simp [Json.lookupField]
      · simp [Json.lookupField, hk]
        rcases List.mem_cons.mp hmem with h1 | h1
        · exact absurd (congrArg Prod.fst h1) hk
        · exact ih k v h1 (fun v' hv' => huniq v' (List.mem_cons_of_mem _ hv'))

theorem residual_nil_lookup :
    ∀ (fs : List (String × Json)) (k : String),
      fs.filter (fun p => p.1 != "jsonrpc" && p.1 != "id") = [] →
      k ≠ "jsonrpc" → k ≠ "id" →
      Json.lookupField fs k = none := by
  intro fs k h hk1 hk2
  apply lookupField_none_of_not_mem
  intro v hv
  have hp : ((k, v).1 != "jsonrpc" && (k, v).1 != "id") = true := by
    simp [bne_iff_ne, hk1, hk2]
  have hmem : (k, v) ∈ fs.filter (fun p => p.1 != "jsonrpc" && p.1 != "id") :=
    List.mem_filter.mpr ⟨hv, hp⟩
  rw [h] at hmem
  simp at hmem

theorem residual_singleton_lookup :
    ∀ (fs : List (String × Json)) (k : String) (v : Json),
      fs.filter (fun p => p.1 != "jsonrpc" && p.1 != "id") = [(k, v)] →
      k ≠ "jsonrpc" → k ≠ "id" →
      Json.lookupField fs k = some v := by
  intro fs k v h hk1 hk2
  have hp : ∀ w : Json, ((k, w).1 != "jsonrpc" && (k, w).1 != "id") = true := by
    intro w; simp [bne_iff_ne, hk1, hk2]
  have hmem : (k, v) ∈ fs := by
    have : (k, v) ∈ fs.filter (fun p => p.1 != "jsonrpc" && p.1 != "id") := by
      rw [h]; exact List.mem_cons_self _ _
    exact (List.mem_filter.mp this).1
  apply lookupField_some_of_mem fs k v hmem
  intro v' hv'
  have : (k, v') ∈ fs.filter (fun p => p.1 != "jsonrpc" && p.1 != "id") :=
    List.mem_filter.mpr ⟨hv', hp v'⟩
  rw [h] at this
  simp at this
  exact this

theorem residual_singleton_lookup_other :
    ∀ (fs : List (String × Json)) (k : String) (v : Json) (k2 : String),
      fs.filter (fun p => p.1 != "jsonrpc" && p.1 != "id") = [(k, v)] →
      k2 ≠ "jsonrpc" → k2 ≠ "id" → k2 ≠ k →
      Json.lookupField fs k2 = none := by
  intro fs k v k2 h hk1 hk2 hk3
  apply lookupField_none_of_not_mem
  intro w hw
  have hp : ((k2, w).1 != "jsonrpc" && (k2, w).1 != "id") = true := by
    simp [bne_iff_ne, hk1, hk2]
  have hmem : (k2, w) ∈ fs.filter (fun p => p.1 != "jsonrpc" && p.1 != "id") :=
    List.mem_filter.mpr ⟨hw, hp⟩
  rw [h] at hmem
  simp at hmem
  exact hk3 hmem.1

/-- C5.  A body that is not a well-formed envelope is rejected with the
library's deserialization error (`FetchError::Json`): malformed syntax,
a missing `jsonrpc` member, a missing `id` member, or an object carrying
neither a `result` nor an `error` member all fail to decode. -/
theorem decode_fails_on_malformed_envelope :
    (∃ m, responseFromSlice none = .error (.Json m)) ∧
    (∀ fs : List (String × Json), Json.lookupField fs "jsonrpc" = none →
      ∃ m, responseFromSlice (some (.obj fs)) = .error (.Json m)) ∧
    (∀ fs : List (String × Json), Json.lookupField fs "id" = none →
      ∃ m, responseFromSlice (some (.obj fs)) = .error (.Json m)) ∧
    (∀ fs : List (String × Json),
      Json.lookupField fs "result" = none → Json.lookupField fs "error" = none →
      ∃ m, responseFromSlice (some (.obj fs)) = .error (.Json m)) := by
  refine ⟨⟨"expected value", rfl⟩, ?_, ?_, ?_⟩
  · intro fs h
    exact ⟨"missing field jsonrpc",
      by simp [responseFromSlice, decodeResponse, getString, h]⟩
  · intro fs h
    cases hjr : getString fs "jsonrpc" with
    | error e => exact ⟨e, by simp [responseFromSlice, decodeResponse, hjr]⟩
    | ok jr =>
        exact ⟨"missing field id",
          by simp [responseFromSlice, decodeResponse, hjr, getU32, h]⟩
  · intro fs hres herr
    cases hjr : getString fs "jsonrpc" with
    | error e => exact ⟨e, by simp [responseFromSlice, decodeResponse, hjr]⟩
    | ok jr =>
        cases hid : getU32 fs "id" with
        | error e => exact ⟨e, by simp [responseFromSlice, decodeResponse, hjr, hid]⟩
        | ok i =>
            cases hfil : fs.filter (fun p => p.1 != "jsonrpc" && p.1 != "id") with
            | nil =>
                exact ⟨"expected a map with a single key",
                  by simp [responseFromSlice, decodeResponse, hjr, hid, hfil]⟩
            | cons q qs =>
                obtain ⟨k, v⟩ := q
                cases qs with
                | cons q2 qs2 =>
                    exact ⟨"expected a map with a single key",
                      by simp [responseFromSlice, decodeResponse, hjr, hid, hfil]⟩
                | nil =>
                    have hmem : (k, v) ∈ fs.filter
                        (fun p => p.1 != "jsonrpc" && p.1 != "id") := by
                      rw [hfil]; exact List.mem_cons_self _ _
                    have hmem2 : (k, v) ∈ fs := (List.mem_filter.mp hmem).1
                    have hkr : k ≠ "result" := by
                      intro he
                      exact not_mem_of_lookupField_none fs "result" hres v (he ▸ hmem2)
                    have hke : k ≠ "error" := by
                      intro he
                      exact not_mem_of_lookupField_none fs "error" herr v (he ▸ hmem2)
                    exact ⟨"unknown variant " ++ k, by
                      simp [responseFromSlice, decodeResponse, hjr, hid, hfil, hkr, hke]⟩

/-- C5 witness: an envelope with `jsonrpc` and `id` but neither a
`result` nor an `error` member is rejected. -/
theorem decode_fails_on_malformed_envelope_witness :
    ∃ m, responseFromSlice
      (some (Json.obj [("jsonrpc", Json.str "2.0"), ("id", Json.num 0)]))
      = .error (.Json m) :=
  decode_fails_on_malformed_envelope.2.2.2
    [("jsonrpc", Json.str "2.0"), ("id", Json.num 0)] rfl rfl

set_option maxRecDepth 100000 in
/-- C4.  A well-formed error envelope (jsonrpc, id, and an error member
with an in-range code and a message) decodes successfully: the
commit-entry dispatch returns a successful call outcome carrying the
error code and message as typed data — never a DeserializationError. -/
theorem commit_entry_error_envelope_is_ok :
    ∀ (jr msg : String) (i : Nat) (c : Int),
      i < 4294967296 → -32768 ≤ c → c < 32768 →
      commit_entry_outcome (Json.obj
        [("jsonrpc", Json.str jr), ("id", Json.num (i : Int)),
         ("error", Json.obj [("code", Json.num c), ("message", Json.str msg)])])
      = Except.ok { jsonrpc := jr, id := i, result := CommitEntry.default,
                    error := { code := c, message := msg } } := by
  intro jr msg i c hi hc1 hc2
  have h0 : (0 : Int) ≤ (i : Int) := by omega
  have h1 : (i : Int) < 4294967296 := by omega
  have h2 : ((i : Int)).toNat = i := by omega
  have e1 : getString
      [("jsonrpc", Json.str jr), ("id", Json.num (i : Int)),
       ("error", Json.obj [("code", Json.num c), ("message", Json.str msg)])]
      "jsonrpc" = Except.ok jr := rfl
  have e2 : getU32
      [("jsonrpc", Json.str jr), ("id", Json.num (i : Int)),
       ("error", Json.obj [("code", Json.num c), ("message", Json.str msg)])]
      "id" = Except.ok i := by
    show (if (0 : Int) ≤ (i : Int) ∧ (i : Int) < 4294967296
          then Except.ok ((i : Int)).toNat
          else Except.error ("out of range for field " ++ "id")) = Except.ok i
    rw [if_pos ⟨h0, h1⟩, h2]
  have e4a : getI16 [("code", Json.num c), ("message", Json.str msg)] "code"
      = Except.ok c := by
    show (if (-32768 : Int) ≤ c ∧ c < 32768
          then Except.ok c
          else Except.error ("out of range for field " ++ "code")) = Except.ok c
    rw [if_pos ⟨hc1, hc2⟩]
  have e4b : getString [("code", Json.num c), ("message", Json.str msg)] "message"
      = Except.ok msg := rfl
  have e4 : decodeApiError (Json.obj [("code", Json.num c), ("message", Json.str msg)])
      = Except.ok { code := c, message := msg } := by
    show Except.bind (getI16 [("code", Json.num c), ("message", Json.str msg)] "code")
        (fun c2 =>
          Except.bind
            (getString [("code", Json.num c), ("message", Json.str msg)] "message")
            (fun m => (Except.ok (ApiError.mk c2 m) : Except String ApiError)))
        = Except.ok (ApiError.mk c msg)
    rw [e4a, except_bind_ok, e4b, except_bind_ok]
  have eres : decodeDefaulted decodeCommitEntry CommitEntry.default
      (Json.lookupField
        [("jsonrpc", Json.str jr), ("id", Json.num (i : Int)),
         ("error", Json.obj [("code", Json.num c), ("message", Json.str msg)])]
        "result") = Except.ok CommitEntry.default := rfl
  have eerr : decodeDefaulted decodeApiError ApiError.default
      (Json.lookupField
        [("jsonrpc", Json.str jr), ("id", Json.num (i : Int)),
         ("error", Json.obj [("code", Json.num c), ("message", Json.str msg)])]
        "error") = Except.ok { code := c, message := msg } := by
    exact e4
  show parseOutcome (decodeApiResponse decodeCommitEntry CommitEntry.default (Json.obj
      [("jsonrpc", Json.str jr), ("id", Json.num (i : Int)),
       ("error", Json.obj [("code", Json.num c), ("message", Json.str msg)])])) = _
  rw [decodeApiResponse_obj, e1, except_bind_ok, e2, except_bind_ok,
      eres, except_bind_ok, eerr, except_bind_ok]
  rfl

/-- C4 witness: the spec's example, an error envelope with code -1 and
message "repeated commit" returned from a commit-entry call. -/
theorem commit_entry_error_envelope_is_ok_witness :
    commit_entry_outcome (Json.obj
      [("jsonrpc", Json.str "2.0"), ("id", Json.num ((0 : Nat) : Int)),
       ("error", Json.obj [("code", Json.num (-1)),
                           ("message", Json.str "repeated commit")])])
    = Except.ok { jsonrpc := "2.0", id := 0, result := CommitEntry.default,
                  error := { code := -1, message := "repeated commit" } } :=
  commit_entry_error_envelope_is_ok "2.0" "repeated commit" 0 (-1)
    (by decide) (by decide) (by decide)

/-- The raw-value instantiation of the defaulted field decode never
fails: an absent member gives null, a present member gives itself. -/
theorem decodeDefaulted_raw (o : Option Json) :
    decodeDefaulted Except.ok Json.null o = Except.ok (o.getD Json.null) := by
  cases o <;> rfl

/-- C10 counterexample: on the envelope carrying an error member with
code 0, both embeddings decode successfully but classify differently —
`Response::success` reports false (error variant) while
`ApiResponse::success` reports true (code equals 0). -/
theorem embeddings_disagree_on_zero_code_error :
    ((decodeResponse (Json.obj
        [("jsonrpc", Json.str "2.0"), ("id", Json.num 0),
         ("error", Json.obj [("code", Json.num 0), ("message", Json.str "")])])).toOption.map
        Response.success = some false) ∧
    ((decodeApiResponseRaw (Json.obj
        [("jsonrpc", Json.str "2.0"), ("id", Json.num 0),
         ("error", Json.obj [("code", Json.num 0), ("message", Json.str "")])])).toOption.map
        ApiResponse.success = some true) := by
  refine ⟨rfl, rfl⟩

/-- C10 amended: whenever both embeddings decode the same envelope
successfully, they classify it identically, except on an envelope whose
error member carries code 0, where the generic embedding classifies an
application error and the defaulting embedding classifies success. -/
theorem embeddings_agree_except_zero_code_error :
    ∀ (j : Json) (r : Response) (a : ApiResponse Json),
      decodeResponse j = Except.ok r →
      decodeApiResponseRaw j = Except.ok a →
      r.success = a.success ∨
        (a.error.code = 0 ∧ r.success = false ∧ a.success = true) := by
  intro j r a h1 h2
  cases j with
  | null => simp [decodeResponse] at h1
  | bool b => simp [decodeResponse] at h1
  | num n => simp [decodeResponse] at h1
  | str s => simp [decodeResponse] at h1
  | arr xs => simp [decodeResponse] at h1
  | obj fs =>
    rw [show decodeApiResponseRaw (Json.obj fs)
          = decodeApiResponse Except.ok Json.null (Json.obj fs) from rfl,
        decodeApiResponse_obj] at h2
    cases hjr : getString fs "jsonrpc" with
    | error e =>
        rw [hjr, except_bind_error] at h2
        exact absurd h2 (by simp)
    | ok jr =>
    cases hid : getU32 fs "id" with
    | error e =>
        rw [hjr, except_bind_ok, hid, except_bind_error] at h2
        exact absurd h2 (by simp)
    | ok i =>
    rw [hjr, except_bind_ok, hid, except_bind_ok, decodeDefaulted_raw,
        except_bind_ok] at h2
    cases hfil : fs.filter (fun p => p.1 != "jsonrpc" && p.1 != "id") with
    | nil => simp [decodeResponse, hjr, hid, hfil] at h1
    | cons q qs =>
    obtain ⟨k, v⟩ := q
    cases qs with
    | cons q2 qs2 => simp [decodeResponse, hjr, hid, hfil] at h1
    | nil =>
    by_cases hkres : k = "result"
    · subst hkres
      simp [decodeResponse, hjr, hid, hfil] at h1
      have herr : Json.lookupField fs "error" = none :=
        residual_singleton_lookup_other fs "result" v "error" hfil
          (by decide) (by decide) (by decide)
      rw [herr] at h2
      rw [show decodeDefaulted decodeApiError ApiError.default (none : Option Json)
            = Except.ok ApiError.default from rfl, except_bind_ok] at h2
      simp only [Except.ok.injEq] at h2
      subst h2
      left
      rw [← h1]
      rfl
    · by_cases hkerr : k = "error"
      · subst hkerr
        cases v with
        | null => simp [decodeResponse, hjr, hid, hfil, hkres] at h1
        | bool b => simp [decodeResponse, hjr, hid, hfil, hkres] at h1
        | num n => simp [decodeResponse, hjr, hid, hfil, hkres] at h1
        | str s => simp [decodeResponse, hjr, hid, hfil, hkres] at h1
        | arr xs => simp [decodeResponse, hjr, hid, hfil, hkres] at h1
        | obj m =>
          simp [decodeResponse, hjr, hid, hfil, hkres] at h1
          have herr : Json.lookupField fs "error" = some (Json.obj m) :=
            residual_singleton_lookup fs "error" (Json.obj m) hfil
              (by decide) (by decide)
          rw [herr] at h2
          rw [show decodeDefaulted decodeApiError ApiError.default
                (some (Json.obj m)) = decodeApiError (Json.obj m) from rfl] at h2
          cases hde : decodeApiError (Json.obj m) with
          | error e2 =>
              rw [hde, except_bind_error] at h2
              exact absurd h2 (by simp)
          | ok er =>
              rw [hde, except_bind_ok] at h2
              simp only [Except.ok.injEq] at h2
              subst h2
              by_cases hc : er.code = 0
              · right
                refine ⟨hc, ?_, ?_⟩
                · rw [← h1]; rfl
                · simp [ApiResponse.success, hc]
              · left
                rw [← h1]
                simp [Response.success, ApiResponse.success, hc]
      · simp [decodeResponse, hjr, hid, hfil, hkres, hkerr] at h1

/-- C10 amended witness: a plain result envelope, on which both
embeddings decode successfully and agree (both classify success). -/
theorem embeddings_agree_except_zero_code_error_witness :
    ({ jsonrpc := "2.0", id := 0, result := Outcome.result Json.null } : Response).success
      = ({ jsonrpc := "2.0", id := 0, result := Json.null,
           error := ApiError.default } : ApiResponse Json).success ∨
    (({ jsonrpc := "2.0", id := 0, result := Json.null,
        error := ApiError.default } : ApiResponse Json).error.code = 0 ∧
     ({ jsonrpc := "2.0", id := 0, result := Outcome.result Json.null } : Response).success
        = false ∧
     ({ jsonrpc := "2.0", id := 0, result := Json.null,
        error := ApiError.default } : ApiResponse Json).success = true) :=
  embeddings_agree_except_zero_code_error
    (Json.obj [("jsonrpc", Json.str "2.0"), ("id", Json.num 0),
               ("result", Json.null)])
    { jsonrpc := "2.0", id := 0, result := Outcome.result Json.null }
    { jsonrpc := "2.0", id := 0, result := Json.null, error := ApiError.default }
    rfl rfl
